import Mathlib

/-!
# Verification of the A/B-test significance engine

Shallow embedding of the statistical core of `streamlit_app.py`: conversion
rates, standard errors, the pooled z-score, the p-value dispatch on the
hypothesis string, and the significance verdict.  Python floats are embedded
as real numbers; the library call `scipy.stats.norm().sf` is embedded as the
survival function of Mathlib's `gaussianReal 0 1` (and, where a theorem needs
numerical facts about normal quantiles that are out of reach, as an abstract
function satisfying the standard normal's defining properties).  A separate
error-aware model captures Python's exceptional behaviour: `ZeroDivisionError`
on integer division by zero, NaN propagation through NumPy operations, and the
`UnboundLocalError` raised by `p_value` when its argument is NaN.
-/

open MeasureTheory ProbabilityTheory

namespace ABTest

/-- Survival function of the standard normal distribution: the embedding of
`scipy.stats.norm().sf`.  `normSf z` is the probability mass of `(z, ∞)` under
the Gaussian measure with mean 0 and variance 1. -/
noncomputable def normSf (z : ℝ) : ℝ :=
  (gaussianReal 0 1 (Set.Ioi z)).toReal

/-- The standard normal measure has no atoms: every singleton is null. -/
lemma gaussian_singleton (x : ℝ) : gaussianReal 0 1 {x} = 0 :=
  gaussianReal_absolutelyContinuous 0 one_ne_zero (measure_singleton x)

/-- The standard normal measure is symmetric under negation. -/
lemma gaussian_map_neg :
    (gaussianReal 0 1).map (fun x => (-1 : ℝ) * x) = gaussianReal 0 1 := by
  have h := gaussianReal_map_const_mul (μ := 0) (v := 1) (-1)
  rw [h]
  congr 1
  · norm_num
  · rw [mul_one, ← NNReal.coe_inj, NNReal.coe_mk]
    norm_num

lemma normSf_nonneg (z : ℝ) : 0 ≤ normSf z :=
  ENNReal.toReal_nonneg

lemma normSf_le_one (z : ℝ) : normSf z ≤ 1 := by
  have h : gaussianReal 0 1 (Set.Ioi z) ≤ 1 := prob_le_one
  simpa [normSf] using ENNReal.toReal_mono ENNReal.one_ne_top h

lemma normSf_antitone : Antitone normSf := by
  intro a b hab
  have hsub : Set.Ioi b ⊆ Set.Ioi a := Set.Ioi_subset_Ioi hab
  have h := measure_mono (μ := gaussianReal 0 1) hsub
  exact ENNReal.toReal_mono (measure_ne_top _ _) h

/-- Complement splitting: the masses of `(-∞, z]` and `(z, ∞)` sum to 1. -/
lemma gaussian_Iic_add_Ioi (z : ℝ) :
    gaussianReal 0 1 (Set.Iic z) + gaussianReal 0 1 (Set.Ioi z) = 1 := by
  have h := measure_add_measure_compl (μ := gaussianReal 0 1)
    (measurableSet_Iic (a := z))
  rwa [Set.compl_Iic, measure_univ] at h

/-- Closed and open upper tails agree (no atoms). -/
lemma gaussian_Ici_eq_Ioi (z : ℝ) :
    gaussianReal 0 1 (Set.Ici z) = gaussianReal 0 1 (Set.Ioi z) := by
  refine le_antisymm ?_ (measure_mono Set.Ioi_subset_Ici_self)
  calc gaussianReal 0 1 (Set.Ici z)
      = gaussianReal 0 1 ({z} ∪ Set.Ioi z) := by rw [← Set.insert_eq, Set.Ioi_insert]
    _ ≤ gaussianReal 0 1 {z} + gaussianReal 0 1 (Set.Ioi z) := measure_union_le _ _
    _ = gaussianReal 0 1 (Set.Ioi z) := by rw [gaussian_singleton, zero_add]

/-- Reflection: the mass of `(-∞, -z]` equals the mass of `[z, ∞)`. -/
lemma gaussian_Iic_neg (z : ℝ) :
    gaussianReal 0 1 (Set.Iic (-z)) = gaussianReal 0 1 (Set.Ici z) := by
  have hmeas : Measurable fun x : ℝ => (-1 : ℝ) * x :=
    (continuous_const.mul continuous_id).measurable
  have h := congrArg (fun m : Measure ℝ => m (Set.Iic (-z))) gaussian_map_neg
  simp only at h
  rw [Measure.map_apply hmeas measurableSet_Iic] at h
  have hpre : Set.preimage (fun x : ℝ => (-1 : ℝ) * x) (Set.Iic (-z)) = Set.Ici z := by
    ext x
    simp only [Set.mem_preimage, Set.mem_Iic, Set.mem_Ici]
    constructor <;> intro hx <;> linarith
  rw [hpre] at h
  exact h.symm

/-- Symmetry of the standard normal survival function: `Φ̄(-z) = 1 - Φ̄(z)`. -/
lemma normSf_neg (z : ℝ) : normSf (-z) = 1 - normSf z := by
  have hsplit := gaussian_Iic_add_Ioi (-z)
  rw [gaussian_Iic_neg z, gaussian_Ici_eq_Ioi z] at hsplit
  have hfin₁ : gaussianReal 0 1 (Set.Ioi z) ≠ ⊤ := measure_ne_top _ _
  have hfin₂ : gaussianReal 0 1 (Set.Ioi (-z)) ≠ ⊤ := measure_ne_top _ _
  have h := congrArg ENNReal.toReal hsplit
  rw [ENNReal.toReal_add hfin₁ hfin₂, ENNReal.one_toReal] at h
  simp only [normSf]
  linarith

/-- Value at zero: `Φ̄(0) = 1/2`. -/
lemma normSf_zero : normSf 0 = 1 / 2 := by
  have h := normSf_neg 0
  rw [neg_zero] at h
  linarith

/-- For `z ≥ 0` the survival function is at most `1/2`. -/
lemma normSf_le_half {z : ℝ} (hz : 0 ≤ z) : normSf z ≤ 1 / 2 := by
  have h := normSf_antitone hz
  rwa [normSf_zero] at h

/-- For `z ≤ 0` the survival function is at least `1/2`. -/
lemma half_le_normSf {z : ℝ} (hz : z ≤ 0) : 1 / 2 ≤ normSf z := by
  have h := normSf_antitone hz
  rwa [normSf_zero] at h

/-- Source `conversion_rate`: `(conversions / visitors) * 100`. -/
noncomputable def conversion_rate (conversions visitors : ℝ) : ℝ :=
  (conversions / visitors) * 100

/-- Source `lift`: `crb - cra`. -/
def lift (cra crb : ℝ) : ℝ :=
  crb - cra

/-- Source `std_err`: `np.sqrt((cr / 100 * (1 - cr / 100)) / visitors)`. -/
noncomputable def std_err (cr visitors : ℝ) : ℝ :=
  Real.sqrt ((cr / 100 * (1 - cr / 100)) / visitors)

/-- Source `std_err_diff`: `np.sqrt(sea ** 2 + seb ** 2)`. -/
noncomputable def std_err_diff (sea seb : ℝ) : ℝ :=
  Real.sqrt (sea ^ 2 + seb ^ 2)

/-- Source `z_score` (pooled two-proportion statistic):
`cr = (ca + cb) / (va + vb)`, `cra = ca / va`, `crb = cb / vb`,
result `(crb - cra) / np.sqrt(cr * (1 - cr) * (1 / va + 1 / vb))`. -/
noncomputable def z_score (conversions_a conversions_b visitors_a visitors_b : ℝ) : ℝ :=
  let cr := (conversions_a + conversions_b) / (visitors_a + visitors_b)
  let cra := conversions_a / visitors_a
  let crb := conversions_b / visitors_b
  (crb - cra) / Real.sqrt (cr * (1 - cr) * (1 / visitors_a + 1 / visitors_b))

/-- Source `p_value`, parametric in the survival function `sf`
standing for the library call `norm().sf`.  The source assigns the local
result under `if z < 0` and under `if z >= 0`; for a (finite) real argument
exactly one of the two guards holds, so the function is the if/else below.
The NaN behaviour (neither guard holds) is captured by `p_value_f`. -/
noncomputable def p_value (sf : ℝ → ℝ) (z : ℝ) (hypothesis : String) : ℝ :=
  if hypothesis = "One-sided" then
    if z < 0 then 1 - sf z else sf z
  else
    if z < 0 then (1 - sf z) * 2 else sf z * 2

/-- Source `significance`: `"YES" if p < alpha else "NO"`. -/
noncomputable def significance (alpha p : ℝ) : String :=
  if p < alpha then "YES" else "NO"

/-! ## Spec-side definition for the pooled z-score (refinement target)

Written from the spec's words: pooled rate `p̄ = (eventsA+eventsB)/(popA+popB)`,
raw rates as fractions, `z = (rawRateB − rawRateA) / sqrt(p̄(1−p̄)(1/popA+1/popB))`. -/

/-- The pooled two-proportion z statistic exactly as the spec states it. -/
noncomputable def pooledZSpec (eventsA eventsB popA popB : ℝ) : ℝ :=
  let pbar := (eventsA + eventsB) / (popA + popB)
  let rawRateA := eventsA / popA
  let rawRateB := eventsB / popB
  (rawRateB - rawRateA) / Real.sqrt (pbar * (1 - pbar) * (1 / popA + 1 / popB))

/-! ## Error-aware model of the Python execution

`calculate_significance` in the source performs no input validation.  Its
arguments arrive as Python integers from `st.number_input`; integer division
by zero raises `ZeroDivisionError`, `np.sqrt` of a negative float returns NaN
without raising, a NumPy float division whose denominator is zero returns a
non-real (NaN or ±∞) without raising, and `p_value` applied to NaN raises
`UnboundLocalError` because neither comparison branch assigns the local
variable.  `Option ℝ` embeds a float value, `none` standing for a non-real
(NaN) result; `Except PyError` embeds raised exceptions.  The constructors
`invalidInputError` and `degenerateInputError` name the error classes the spec
postulates, so that claims about them are statable; the model never produces
them, matching the source, which defines no such errors. -/

/-- Exceptions the spec or the source mention.  Only `zeroDivisionError` and
`unboundLocalError` are ever raised by the code. -/
inductive PyError where
  | zeroDivisionError
  | unboundLocalError
  | invalidInputError
  | degenerateInputError
deriving DecidableEq

/-- Result record: the values `calculate_significance` stores into session
state (`cra`, `crb`, `diff`, `sea`, `seb`, `sed`, `z`, `p`, `significant`). -/
structure SigResult where
  cra : ℝ
  crb : ℝ
  diff : ℝ
  sea : Option ℝ
  seb : Option ℝ
  sed : Option ℝ
  z : Option ℝ
  p : ℝ
  significant : String

/-- Model of `conversion_rate(int(conversions), int(visitors))`: Python integer `/` is
true division and raises `ZeroDivisionError` when the divisor is zero. -/
noncomputable def conversion_rate_i (conversions visitors : ℤ) : Except PyError ℝ :=
  if visitors = 0 then Except.error PyError.zeroDivisionError
  else Except.ok (conversion_rate (conversions : ℝ) (visitors : ℝ))

/-- Model of `std_err(cr, float(visitors))`: the plain-float division raises
`ZeroDivisionError` when `visitors` is zero; `np.sqrt` of a negative argument
returns NaN (`none`) without raising. -/
noncomputable def std_err_f (cr visitors : ℝ) : Except PyError (Option ℝ) :=
  if visitors = 0 then Except.error PyError.zeroDivisionError
  else if (cr / 100 * (1 - cr / 100)) / visitors < 0 then Except.ok none
  else Except.ok (some (std_err cr visitors))

/-- Model of `std_err_diff(sea, seb)`: NaN propagates through `**`, `+` and `np.sqrt`;
for real arguments the radicand `sea² + seb²` is non-negative, so the result
is real. -/
noncomputable def std_err_diff_f (sea seb : Option ℝ) : Option ℝ :=
  match sea, seb with
  | some a, some b => some (std_err_diff a b)
  | _, _ => none

/-- Model of `z_score(ca, cb, va, vb)` on Python integers: each `/` with an integer
divisor 0 raises `ZeroDivisionError` (in source order: `va + vb`, then `va`,
then `vb`); `np.sqrt` of a negative radicand yields NaN; and a final NumPy
division by a zero denominator yields a non-real (0/0 is NaN; x/0 is ±∞) —
`none` stands for any non-real result. -/
noncomputable def z_score_f (conversions_a conversions_b visitors_a visitors_b : ℤ) :
    Except PyError (Option ℝ) :=
  if visitors_a + visitors_b = 0 then Except.error PyError.zeroDivisionError
  else if visitors_a = 0 then Except.error PyError.zeroDivisionError
  else if visitors_b = 0 then Except.error PyError.zeroDivisionError
  else
    let cr := ((conversions_a : ℝ) + (conversions_b : ℝ)) /
      ((visitors_a : ℝ) + (visitors_b : ℝ))
    let rad := cr * (1 - cr) * (1 / (visitors_a : ℝ) + 1 / (visitors_b : ℝ))
    if rad ≤ 0 then Except.ok none
    else Except.ok (some (z_score (conversions_a : ℝ) (conversions_b : ℝ)
      (visitors_a : ℝ) (visitors_b : ℝ)))

/-- Comparison `z < 0` on a float that may be NaN: any comparison with NaN is false. -/
noncomputable def fLt (x : Option ℝ) (y : ℝ) : Bool :=
  match x with
  | some v => decide (v < y)
  | none => false

/-- Comparison `z >= 0` on a float that may be NaN: any comparison with NaN is false. -/
noncomputable def fGe (x : Option ℝ) (y : ℝ) : Bool :=
  match x with
  | some v => decide (y ≤ v)
  | none => false

/-- Model of `p_value(z, hypothesis)` with the possibly-NaN argument: the local
variable starts unassigned (`none`), each `if` assigns it when its guard
holds, and returning it unassigned raises `UnboundLocalError`. -/
noncomputable def p_value_f (sf : ℝ → ℝ) (z : Option ℝ) (hypothesis : String) :
    Except PyError ℝ :=
  let pv0 : Option ℝ := none
  let pv :=
    if hypothesis = "One-sided" then
      let pv1 := if fLt z 0 then some (1 - sf (z.getD 0)) else pv0
      if fGe z 0 then some (sf (z.getD 0)) else pv1
    else
      let pv1 := if fLt z 0 then some ((1 - sf (z.getD 0)) * 2) else pv0
      if fGe z 0 then some (sf (z.getD 0) * 2) else pv1
  match pv with
  | some p => Except.ok p
  | none => Except.error PyError.unboundLocalError

/-- Source `calculate_significance`: sequences rates, lift, standard
errors, z-score, p-value and verdict, propagating the first raised exception.
(The source reads `hypothesis` and `alpha` back from session state, but the
caller stores exactly the passed values there, so they coincide.) -/
noncomputable def calculate_significance (sf : ℝ → ℝ)
    (conversions_a conversions_b visitors_a visitors_b : ℤ)
    (hypothesis : String) (alpha : ℝ) : Except PyError SigResult := do
  let cra ← conversion_rate_i conversions_a visitors_a
  let crb ← conversion_rate_i conversions_b visitors_b
  let diff := lift cra crb
  let sea ← std_err_f cra (visitors_a : ℝ)
  let seb ← std_err_f crb (visitors_b : ℝ)
  let sed := std_err_diff_f sea seb
  let z ← z_score_f conversions_a conversions_b visitors_a visitors_b
  let p ← p_value_f sf z hypothesis
  let significant := significance alpha p
  return ⟨cra, crb, diff, sea, seb, sed, z, p, significant⟩

/-! ## Helper lemmas -/

/-- Unfolded form of `z_score`. -/
lemma z_score_def (ca cb va vb : ℝ) :
    z_score ca cb va vb = (cb / vb - ca / va) /
      Real.sqrt (((ca + cb) / (va + vb)) * (1 - (ca + cb) / (va + vb)) *
        (1 / va + 1 / vb)) := rfl

/-- On a real (non-NaN) argument, the error-aware `p_value` model returns the
pure value: exactly one of the two comparison guards holds. -/
lemma p_value_f_some (sf : ℝ → ℝ) (z : ℝ) (hyp : String) :
    p_value_f sf (some z) hyp = Except.ok (p_value sf z hyp) := by
  by_cases hh : hyp = "One-sided" <;> by_cases hz : z < 0
  · simp [p_value_f, p_value, fLt, fGe, hh, hz, not_le.mpr hz]
  · simp [p_value_f, p_value, fLt, fGe, hh, hz, not_lt.mp hz]
  · simp [p_value_f, p_value, fLt, fGe, hh, hz, not_le.mpr hz]
  · simp [p_value_f, p_value, fLt, fGe, hh, hz, not_lt.mp hz]

/-- On NaN, neither comparison holds, the local variable stays unassigned,
and `p_value` raises `UnboundLocalError`. -/
lemma p_value_f_nan (sf : ℝ → ℝ) (hyp : String) :
    p_value_f sf none hyp = Except.error PyError.unboundLocalError := by
  simp [p_value_f, fLt, fGe]

end ABTest

namespace ABTest

/-! ## Claims -/

/-- C1: for all event counts and positive populations, the engine's `z_score`
is the pooled two-proportion statistic
`(rawRateB − rawRateA) / sqrt(p̄(1−p̄)(1/vA + 1/vB))` with
`p̄ = (cA+cB)/(vA+vB)`, as the spec states it (`pooledZSpec`). -/
theorem c1_z_score_eq_pooled (cA cB vA vB : ℝ) (_hA : 0 < vA)
    (_hB : 0 < vB) :
    z_score cA cB vA vB = pooledZSpec cA cB vA vB := rfl

theorem c1_witness : z_score 23 41 228 254 = pooledZSpec 23 41 228 254 :=
  c1_z_score_eq_pooled 23 41 228 254 (by norm_num) (by norm_num)

/-- C2: for every real `z`, `p_value` under "Two-sided" returns `2·Φ̄(|z|)`
(equivalently `2·Φ̄(z)` for `z ≥ 0` and `2·(1−Φ̄(z))` for `z < 0`), under
"One-sided" returns `Φ̄(z)` for `z ≥ 0` and `1−Φ̄(z)` for `z < 0`, where `Φ̄`
is the standard-normal survival function; both results lie in `[0,1]`. -/
theorem c2_p_value_formula (z : ℝ) :
    p_value normSf z "Two-sided" = 2 * normSf |z| ∧
    p_value normSf z "One-sided" = (if z < 0 then 1 - normSf z else normSf z) ∧
    0 ≤ p_value normSf z "Two-sided" ∧ p_value normSf z "Two-sided" ≤ 1 ∧
    0 ≤ p_value normSf z "One-sided" ∧ p_value normSf z "One-sided" ≤ 1 := by
  have hne : ¬ ("Two-sided" = "One-sided") := by decide
  have htwo : p_value normSf z "Two-sided" = 2 * normSf |z| := by
    by_cases hz : z < 0
    · rw [p_value, if_neg hne, if_pos hz, abs_of_neg hz, normSf_neg]
      ring
    · rw [p_value, if_neg hne, if_neg hz, abs_of_nonneg (not_lt.mp hz)]
      ring
  have hone : p_value normSf z "One-sided" =
      (if z < 0 then 1 - normSf z else normSf z) := by
    rw [p_value, if_pos rfl]
  refine ⟨htwo, hone, ?_, ?_, ?_, ?_⟩
  · rw [htwo]
    have := normSf_nonneg |z|
    linarith
  · rw [htwo]
    have := normSf_le_half (abs_nonneg z)
    linarith
  · rw [hone]
    by_cases hz : z < 0
    · rw [if_pos hz]
      have := normSf_le_one z
      linarith
    · rw [if_neg hz]
      exact normSf_nonneg z
  · rw [hone]
    by_cases hz : z < 0
    · rw [if_pos hz]
      have := normSf_nonneg z
      linarith
    · rw [if_neg hz]
      have := normSf_le_half (not_lt.mp hz)
      linarith

/-- C4: the significance verdict is the strict comparison `p < alpha`: the
result is affirmative ("YES") exactly when `p < alpha`, and a p-value exactly
equal to `alpha` is judged not significant ("NO"). -/
theorem c4_significance_strict (alpha p : ℝ) :
    (significance alpha p = "YES" ↔ p < alpha) ∧
    (p = alpha → significance alpha p = "NO") := by
  constructor
  · constructor
    · intro h
      by_contra hlt
      rw [significance, if_neg hlt] at h
      exact absurd h (by decide)
    · intro h
      rw [significance, if_pos h]
  · intro h
    rw [significance, if_neg (by rw [h]; exact lt_irrefl alpha)]

theorem c4_witness : significance (1 / 20) (1 / 20) = "NO" :=
  (c4_significance_strict (1 / 20) (1 / 20)).2 rfl

/-- C7: for `0 ≤ events ≤ population` and `population > 0`,
`conversion_rate` equals `events / population × 100` (hence within the 1e-9
tolerance) and lies in `[0, 100]`. -/
theorem c7_conversion_rate_range (e p : ℝ) (h0 : 0 ≤ e) (h1 : e ≤ p)
    (h2 : 0 < p) :
    conversion_rate e p = e / p * 100 ∧
    |conversion_rate e p - e / p * 100| ≤ 1 / 1000000000 ∧
    0 ≤ conversion_rate e p ∧ conversion_rate e p ≤ 100 := by
  have heq : conversion_rate e p = e / p * 100 := rfl
  refine ⟨heq, ?_, ?_, ?_⟩
  · rw [heq, sub_self, abs_zero]
    norm_num
  · rw [heq]
    have := div_nonneg h0 h2.le
    linarith
  · rw [heq]
    have := (div_le_one h2).mpr h1
    linarith

theorem c7_witness :
    conversion_rate 23 228 = 23 / 228 * 100 ∧
    |conversion_rate 23 228 - 23 / 228 * 100| ≤ 1 / 1000000000 ∧
    0 ≤ conversion_rate 23 228 ∧ conversion_rate 23 228 ≤ 100 :=
  c7_conversion_rate_range 23 228 (by norm_num) (by norm_num) (by norm_num)

/-- C9: for positive populations, swapping the two groups negates the
z-score: `z_score cA cB vA vB = − z_score cB cA vB vA`. -/
theorem c9_z_score_antisymm (cA cB vA vB : ℝ) (_hA : 0 < vA)
    (_hB : 0 < vB) :
    z_score cA cB vA vB = - z_score cB cA vB vA := by
  rw [z_score_def, z_score_def, add_comm cB cA, add_comm vB vA,
    add_comm (1 / vB) (1 / vA), ← neg_div, neg_sub]

theorem c9_witness : z_score 23 41 228 254 = - z_score 41 23 254 228 :=
  c9_z_score_antisymm 23 41 228 254 (by norm_num) (by norm_num)

/-- C10: every hypothesis value other than the exact string "One-sided"
(including "two-sided" or the empty string) is handled by the Two-sided
branch, giving `2·Φ̄(|z|)`; no hypothesis value is rejected — on a real `z`
the call returns normally for any string. -/
theorem c10_unrecognized_hypothesis (z : ℝ) (hyp : String)
    (h : hyp ≠ "One-sided") :
    p_value normSf z hyp = 2 * normSf |z| ∧
    ∀ sf : ℝ → ℝ, p_value_f sf (some z) hyp = Except.ok (p_value sf z hyp) := by
  constructor
  · by_cases hz : z < 0
    · rw [p_value, if_neg h, if_pos hz, abs_of_neg hz, normSf_neg]
      ring
    · rw [p_value, if_neg h, if_neg hz, abs_of_nonneg (not_lt.mp hz)]
      ring
  · intro sf
    exact p_value_f_some sf z hyp

theorem c10_witness :
    p_value normSf 1 "two-sided" = 2 * normSf |1| ∧
    ∀ sf : ℝ → ℝ,
      p_value_f sf (some 1) "two-sided" =
        Except.ok (p_value sf 1 "two-sided") :=
  c10_unrecognized_hypothesis 1 "two-sided" (by decide)

/-- Radicand of the pooled z denominator at A=(23,228), B=(41,254). -/
lemma z0_rad_pos :
    (0 : ℝ) < ((23 : ℝ) + 41) / (228 + 254) * (1 - (23 + 41) / (228 + 254)) *
      (1 / 228 + 1 / 254) := by
  norm_num

/-- Lower bound on the code's z at scenario-2 inputs. -/
lemma z0_lower : (1.95 : ℝ) < z_score 23 41 228 254 := by
  rw [z_score_def]
  have hs : (0 : ℝ) < Real.sqrt (((23 : ℝ) + 41) / (228 + 254) *
      (1 - (23 + 41) / (228 + 254)) * (1 / 228 + 1 / 254)) :=
    Real.sqrt_pos.mpr z0_rad_pos
  rw [lt_div_iff₀ hs]
  have hub : Real.sqrt (((23 : ℝ) + 41) / (228 + 254) *
      (1 - (23 + 41) / (228 + 254)) * (1 / 228 + 1 / 254)) <
      ((41 : ℝ) / 254 - 23 / 228) / 1.95 := by
    rw [Real.sqrt_lt' (by norm_num)]
    norm_num
  nlinarith [hub, hs]

/-- Upper bound on the code's z at scenario-2 inputs. -/
lemma z0_upper : z_score 23 41 228 254 < 1.96 := by
  rw [z_score_def]
  have hs : (0 : ℝ) < Real.sqrt (((23 : ℝ) + 41) / (228 + 254) *
      (1 - (23 + 41) / (228 + 254)) * (1 / 228 + 1 / 254)) :=
    Real.sqrt_pos.mpr z0_rad_pos
  rw [div_lt_iff₀ hs]
  have hlb : ((41 : ℝ) / 254 - 23 / 228) / 1.96 <
      Real.sqrt (((23 : ℝ) + 41) / (228 + 254) *
        (1 - (23 + 41) / (228 + 254)) * (1 / 228 + 1 / 254)) := by
    rw [Real.lt_sqrt (by norm_num)]
    norm_num
  nlinarith [hlb, hs]

/-- C5 counterexample: at A=(23,228), B=(41,254) the code's pooled z-score
lies strictly between 1.95 and 1.96, so it is not ≈ +1.91 (it differs from
1.91 by more than 0.04). -/
theorem c5_counterexample :
    1.95 < z_score 23 41 228 254 ∧ z_score 23 41 228 254 < 1.96 ∧
    ¬ |z_score 23 41 228 254 - 1.91| ≤ 0.02 := by
  have h1 := z0_lower
  have h2 := z0_upper
  refine ⟨h1, h2, ?_⟩
  rw [not_le, lt_abs]
  left
  linarith

/-- C5 amended: rateA ≈ 10.09%, rateB ≈ 16.14%; the pooled z is ≈ +1.96
(strictly between 1.95 and 1.96), not +1.91, and p = 2·Φ̄(z) ≈ 0.051, not
0.056.  Given the standard-normal quantile bracket `0.025 ≤ sf(z) < 0.05`
(true of `Φ̄` here since `1.6449 < z < 1.9600`), the p-value lies in
`[0.05, 0.10)`: not significant at alpha = 0.05 but significant at
alpha = 0.10. -/
theorem c5_scenario2 (sf : ℝ → ℝ)
    (hlo : 1 / 40 ≤ sf (z_score 23 41 228 254))
    (hhi : sf (z_score 23 41 228 254) < 1 / 20) :
    |conversion_rate 23 228 - 10.09| < 0.005 ∧
    |conversion_rate 41 254 - 16.14| < 0.005 ∧
    1.95 < z_score 23 41 228 254 ∧ z_score 23 41 228 254 < 1.96 ∧
    1 / 20 ≤ p_value sf (z_score 23 41 228 254) "Two-sided" ∧
    p_value sf (z_score 23 41 228 254) "Two-sided" < 1 / 10 ∧
    significance 0.05 (p_value sf (z_score 23 41 228 254) "Two-sided") = "NO" ∧
    significance 0.10 (p_value sf (z_score 23 41 228 254) "Two-sided") =
      "YES" := by
  have hz := z0_lower
  have hz' := z0_upper
  have hnneg : ¬ z_score 23 41 228 254 < 0 := by linarith
  have hp : p_value sf (z_score 23 41 228 254) "Two-sided" =
      sf (z_score 23 41 228 254) * 2 := by
    rw [p_value, if_neg (by decide), if_neg hnneg]
  have hra : |conversion_rate 23 228 - 10.09| < 0.005 := by
    rw [conversion_rate, abs_lt]
    norm_num
  have hrb : |conversion_rate 41 254 - 16.14| < 0.005 := by
    rw [conversion_rate, abs_lt]
    norm_num
  refine ⟨hra, hrb, hz, hz', ?_, ?_, ?_, ?_⟩
  · rw [hp]
    linarith
  · rw [hp]
    linarith
  · rw [significance, if_neg (by rw [hp]; intro h; linarith)]
  · rw [significance, if_pos (by rw [hp]; linarith)]

theorem c5_witness :
    |conversion_rate 23 228 - 10.09| < 0.005 ∧
    |conversion_rate 41 254 - 16.14| < 0.005 ∧
    1.95 < z_score 23 41 228 254 ∧ z_score 23 41 228 254 < 1.96 ∧
    1 / 20 ≤ p_value (fun _ => 3 / 100) (z_score 23 41 228 254) "Two-sided" ∧
    p_value (fun _ => 3 / 100) (z_score 23 41 228 254) "Two-sided" < 1 / 10 ∧
    significance 0.05
      (p_value (fun _ => 3 / 100) (z_score 23 41 228 254) "Two-sided") = "NO" ∧
    significance 0.10
      (p_value (fun _ => 3 / 100) (z_score 23 41 228 254) "Two-sided") =
      "YES" :=
  c5_scenario2 (fun _ => 3 / 100) (by norm_num) (by norm_num)

/-- C8 counterexample: applied to NaN, `p_value` fails with
`UnboundLocalError` (the local variable is never assigned), not with the
`InvalidInputError` the claim names. -/
theorem c8_counterexample :
    p_value_f normSf none "Two-sided" = Except.error PyError.unboundLocalError ∧
    p_value_f normSf none "Two-sided" ≠ Except.error PyError.invalidInputError := by
  refine ⟨p_value_f_nan normSf "Two-sided", ?_⟩
  rw [p_value_f_nan]
  simp

/-- C8 amended: `p_value` has no failure mode on any real `z` for any
hypothesis string (it returns the pure value), and on NaN it fails with
`UnboundLocalError`, not `InvalidInputError`. -/
theorem c8_p_value_failure_modes (sf : ℝ → ℝ) (z : ℝ) (hyp : String) :
    p_value_f sf (some z) hyp = Except.ok (p_value sf z hyp) ∧
    p_value_f sf none hyp = Except.error PyError.unboundLocalError :=
  ⟨p_value_f_some sf z hyp, p_value_f_nan sf hyp⟩

/-- C3 counterexample: at A=(0,100), B=(0,100) the pooled variance term is
zero, the z-score evaluates to a non-real (NaN), and the engine fails with
`UnboundLocalError` raised inside `p_value` — not with the
`DegenerateInputError` the claim names. -/
theorem c3_counterexample :
    z_score_f 0 0 100 100 = Except.ok none ∧
    calculate_significance normSf 0 0 100 100 "Two-sided" (1 / 20) =
      Except.error PyError.unboundLocalError ∧
    calculate_significance normSf 0 0 100 100 "Two-sided" (1 / 20) ≠
      Except.error PyError.degenerateInputError := by
  have hz : z_score_f 0 0 100 100 = Except.ok none := by
    rw [z_score_f]
    norm_num
  have hcr : conversion_rate_i 0 100 = Except.ok (((0 : ℝ) / (100 : ℝ)) * 100) := by
    rw [conversion_rate_i, if_neg (by norm_num), conversion_rate]
    norm_num
  have hse : std_err_f (((0 : ℝ) / (100 : ℝ)) * 100) (100 : ℝ) =
      Except.ok (some (std_err (((0 : ℝ) / (100 : ℝ)) * 100) (100 : ℝ))) := by
    rw [std_err_f, if_neg (by norm_num), if_neg (by norm_num)]
  have hmain : calculate_significance normSf 0 0 100 100 "Two-sided" (1 / 20) =
      Except.error PyError.unboundLocalError := by
    rw [calculate_significance]
    simp only [Int.cast_zero, Int.cast_ofNat, hcr, hse, hz, p_value_f_nan,
      Except.bind, bind]
  exact ⟨hz, hmain, by rw [hmain]; simp⟩

/-- C3 amended: for any population `v > 0`, when both groups have zero events
the pooled variance term is zero, the z-score is non-real (NaN), and the
engine fails with `UnboundLocalError` raised inside `p_value`; the code
defines no `DegenerateInputError` and raises none. -/
theorem c3_degenerate_nan (sf : ℝ → ℝ) (hyp : String) (alpha : ℝ) (v : ℤ)
    (hv : 0 < v) :
    z_score_f 0 0 v v = Except.ok none ∧
    calculate_significance sf 0 0 v v hyp alpha =
      Except.error PyError.unboundLocalError := by
  have hvne : v ≠ 0 := hv.ne'
  have hvv : v + v ≠ 0 := by omega
  have hz : z_score_f 0 0 v v = Except.ok none := by
    rw [z_score_f, if_neg hvv, if_neg hvne, if_neg hvne]
    norm_num
  have hcr : conversion_rate_i 0 v = Except.ok (((0 : ℝ) / (v : ℝ)) * 100) := by
    rw [conversion_rate_i, if_neg hvne, conversion_rate]
    norm_num
  have hse : std_err_f (((0 : ℝ) / (v : ℝ)) * 100) (v : ℝ) =
      Except.ok (some (std_err (((0 : ℝ) / (v : ℝ)) * 100) (v : ℝ))) := by
    have hvr : ((v : ℝ)) ≠ 0 := Int.cast_ne_zero.mpr hvne
    rw [std_err_f, if_neg hvr, if_neg (by norm_num)]
  refine ⟨hz, ?_⟩
  rw [calculate_significance]
  simp only [Int.cast_zero, hcr, hse, hz, p_value_f_nan, Except.bind, bind]

theorem c3_witness :
    (0 : ℤ) < 100 ∧
    calculate_significance normSf 0 0 100 100 "One-sided" (1 / 20) =
      Except.error PyError.unboundLocalError :=
  ⟨by norm_num,
    (c3_degenerate_nan normSf "One-sided" (1 / 20) 100 (by norm_num)).2⟩

/-- C6 counterexample: the empty string is not a recognized hypothesis value,
yet the engine runs to completion and returns a result — no
`InvalidInputError` is raised. -/
theorem c6_counterexample :
    (calculate_significance normSf 23 41 228 254 "" (1 / 20)).isOk = true := by
  have hcrA : conversion_rate_i 23 228 =
      Except.ok (((23 : ℝ) / (228 : ℝ)) * 100) := by
    rw [conversion_rate_i, if_neg (by norm_num), conversion_rate]
    norm_num
  have hcrB : conversion_rate_i 41 254 =
      Except.ok (((41 : ℝ) / (254 : ℝ)) * 100) := by
    rw [conversion_rate_i, if_neg (by norm_num), conversion_rate]
    norm_num
  have hseA : std_err_f (((23 : ℝ) / (228 : ℝ)) * 100) (228 : ℝ) =
      Except.ok (some (std_err (((23 : ℝ) / (228 : ℝ)) * 100) (228 : ℝ))) := by
    rw [std_err_f, if_neg (by norm_num), if_neg (by norm_num)]
  have hseB : std_err_f (((41 : ℝ) / (254 : ℝ)) * 100) (254 : ℝ) =
      Except.ok (some (std_err (((41 : ℝ) / (254 : ℝ)) * 100) (254 : ℝ))) := by
    rw [std_err_f, if_neg (by norm_num), if_neg (by norm_num)]
  have hz : z_score_f 23 41 228 254 =
      Except.ok (some (z_score (23 : ℝ) (41 : ℝ) (228 : ℝ) (254 : ℝ))) := by
    rw [z_score_f, if_neg (by norm_num), if_neg (by norm_num),
      if_neg (by norm_num)]
    norm_num
  rw [calculate_significance]
  simp only [Int.cast_ofNat, hcrA, hcrB, hseA, hseB, hz, p_value_f_some,
    Except.bind, bind]
  rfl

/-- C6 amended: the code performs no input validation at all.  Negative
events and an alpha outside (0,1) are processed without any error, an
unrecognized hypothesis string falls through to the Two-sided branch, and a
zero population raises `ZeroDivisionError` during the division itself — the
code defines no `InvalidInputError` and raises none. -/
theorem c6_no_validation :
    (calculate_significance normSf (-5) 41 228 254 "Two-sided" 2).isOk = true ∧
    calculate_significance normSf 23 41 0 254 "Two-sided" (1 / 20) =
      Except.error PyError.zeroDivisionError := by
  constructor
  · have hcrA : conversion_rate_i (-5) 228 =
        Except.ok (((-5 : ℝ) / (228 : ℝ)) * 100) := by
      rw [conversion_rate_i, if_neg (by norm_num), conversion_rate]
      norm_num
    have hcrB : conversion_rate_i 41 254 =
        Except.ok (((41 : ℝ) / (254 : ℝ)) * 100) := by
      rw [conversion_rate_i, if_neg (by norm_num), conversion_rate]
      norm_num
    have hseA : std_err_f (((-5 : ℝ) / (228 : ℝ)) * 100) (228 : ℝ) =
        Except.ok none := by
      rw [std_err_f, if_neg (by norm_num), if_pos ?_]
      nlinarith [sq_nonneg ((5 : ℝ) / 228)]
    have hseB : std_err_f (((41 : ℝ) / (254 : ℝ)) * 100) (254 : ℝ) =
        Except.ok (some (std_err (((41 : ℝ) / (254 : ℝ)) * 100) (254 : ℝ))) := by
      rw [std_err_f, if_neg (by norm_num), if_neg (by norm_num)]
    have hz : z_score_f (-5) 41 228 254 =
        Except.ok (some (z_score (-5 : ℝ) (41 : ℝ) (228 : ℝ) (254 : ℝ))) := by
      rw [z_score_f, if_neg (by norm_num), if_neg (by norm_num),
        if_neg (by norm_num)]
      norm_num
    rw [calculate_significance]
    simp only [Int.cast_ofNat, Int.cast_neg, hcrA, hcrB, hseA, hseB, hz,
      p_value_f_some, Except.bind, bind]
    rfl
  · rw [calculate_significance]
    rw [show conversion_rate_i 23 0 = Except.error PyError.zeroDivisionError by
      rw [conversion_rate_i, if_pos rfl]]
    rfl

end ABTest
